import Mathlib

/-
Verification development for the character-movement core of the repository:
the `Climb` character state handler (`src/common/src/comp/states/climb.rs`)
and the local system registration (`src/common/src/sys/mod.rs`).

Rust `f32` arithmetic is modelled over the real numbers `ℝ`; `powf`, `abs`,
`signum`, `min`, vector `magnitude_squared` / `normalized`, and the `vek`
crate's clamped `Lerp` / `Slerp` are given their exact real-number meaning.
-/

set_option maxHeartbeats 1600000

open Classical

noncomputable section

/-- Two-dimensional `f32` vector (`vek::vec::Vec2<f32>`), modelled over `ℝ`. -/
structure Vec2 where
  x : ℝ
  y : ℝ

/-- Three-dimensional `f32` vector (`vek::vec::Vec3<f32>`), modelled over `ℝ`. -/
structure Vec3 where
  x : ℝ
  y : ℝ
  z : ℝ

/-- Componentwise sum of two `Vec2`s. -/
def Vec2.add (a b : Vec2) : Vec2 := ⟨a.x + b.x, a.y + b.y⟩

/-- Componentwise (Hadamard) product of two `Vec2`s, as `vek`'s `Mul` for vectors. -/
def Vec2.mul (a b : Vec2) : Vec2 := ⟨a.x * b.x, a.y * b.y⟩

/-- Scalar multiple of a `Vec2`. -/
def Vec2.smul (a : Vec2) (t : ℝ) : Vec2 := ⟨a.x * t, a.y * t⟩

/-- `Vec2::broadcast(t)`: the vector with every component equal to `t`. -/
def Vec2.broadcast (t : ℝ) : Vec2 := ⟨t, t⟩

/-- `Vec2::magnitude_squared`: `x*x + y*y`. -/
def Vec2.magnitude_squared (a : Vec2) : ℝ := a.x * a.x + a.y * a.y

/-- `Vec2::magnitude`: the Euclidean norm. -/
def Vec2.magnitude (a : Vec2) : ℝ := Real.sqrt a.magnitude_squared

/-- `Vec2::normalized`: the vector divided componentwise by its magnitude.
In `f32` a zero vector yields NaN components; over `ℝ` division by zero
yields `0`, which no claim below depends on. -/
def Vec2.normalized (a : Vec2) : Vec2 := ⟨a.x / a.magnitude, a.y / a.magnitude⟩

/-- `Vec2::from(v : Vec3)`: drop the `z` component. -/
def Vec2.ofVec3 (v : Vec3) : Vec2 := ⟨v.x, v.y⟩

/-- The zero 3-vector (`Vec3::zero()`). -/
def Vec3.zero : Vec3 := ⟨0, 0, 0⟩

/-- Componentwise sum of two `Vec3`s. -/
def Vec3.add (a b : Vec3) : Vec3 := ⟨a.x + b.x, a.y + b.y, a.z + b.z⟩

/-- Componentwise difference of two `Vec3`s. -/
def Vec3.sub (a b : Vec3) : Vec3 := ⟨a.x - b.x, a.y - b.y, a.z - b.z⟩

/-- Scalar multiple of a `Vec3`. -/
def Vec3.smul (a : Vec3) (t : ℝ) : Vec3 := ⟨a.x * t, a.y * t, a.z * t⟩

/-- `Vec3 += Vec2` as used in the handler: adds to the `x`/`y` components,
leaving `z` unchanged. -/
def Vec3.addVec2 (a : Vec3) (b : Vec2) : Vec3 := ⟨a.x + b.x, a.y + b.y, a.z⟩

/-- Componentwise map over a `Vec3` (`Vec3::map`). -/
def Vec3.map (a : Vec3) (f : ℝ → ℝ) : Vec3 := ⟨f a.x, f a.y, f a.z⟩

/-- `Vec3::magnitude_squared`: `x*x + y*y + z*z`. -/
def Vec3.magnitude_squared (a : Vec3) : ℝ := a.x * a.x + a.y * a.y + a.z * a.z

/-- `Vec3::magnitude`: the Euclidean norm. -/
def Vec3.magnitude (a : Vec3) : ℝ := Real.sqrt a.magnitude_squared

/-- Dot product of two `Vec3`s. -/
def Vec3.dot (a b : Vec3) : ℝ := a.x * b.x + a.y * b.y + a.z * b.z

/-- `Vec3::normalized`: the vector divided componentwise by its magnitude
(zero-vector caveat as for `Vec2.normalized`). -/
def Vec3.normalized (a : Vec3) : Vec3 :=
  ⟨a.x / a.magnitude, a.y / a.magnitude, a.z / a.magnitude⟩

/-- `Vec3::from(v : Vec2)` / `ori_dir.into()`: embed with `z = 0`. -/
def Vec3.ofVec2 (v : Vec2) : Vec3 := ⟨v.x, v.y, 0⟩

/-- Clamp a factor into `[0, 1]`, as `vek`'s clamped interpolation does. -/
def clamp01 (t : ℝ) : ℝ := max 0 (min 1 t)

/-- `vek::Lerp::lerp` for `Vec3<f32>` with scalar factor: componentwise
`from + (to - from) * factor`, with the factor clamped into `[0, 1]`. -/
def Vec3.lerp (a b : Vec3) (t : ℝ) : Vec3 :=
  (a.add ((b.sub a).smul (clamp01 t)))

/-- `vek::ops::Slerp::slerp` for `Vec3<f32>` (external `vek` crate): spherical
linear interpolation from `a` toward `b` by the clamped factor `t`. The
claims below depend only on when the handler invokes it, never on its value. -/
def Vec3.slerp (a b : Vec3) (t : ℝ) : Vec3 :=
  let t' := clamp01 t
  let θ := Real.arccos (a.dot b / (a.magnitude * b.magnitude))
  if Real.sin θ = 0 then a
  else (a.smul (Real.sin ((1 - t') * θ) / Real.sin θ)).add
        (b.smul (Real.sin (t' * θ) / Real.sin θ))

/-- Rust `f32::powf x 1.5` for a nonnegative base: `x ^ (3/2) = x * sqrt x`. -/
def powf15 (x : ℝ) : ℝ := x * Real.sqrt x

/-- Rust `f32::signum` on real (non-NaN, single-zero) values: `-1` for
negative inputs, `1` otherwise (Rust yields `1.0` on `+0.0`; in the handler
`signum` is always multiplied by `|e| ^ 1.5`, which vanishes at `0`). -/
def signum (x : ℝ) : ℝ := if x < 0 then -1 else 1

/-- Modelled from the spec: the movement-state tag of `CharacterState`
(`MoveState`, declared alongside the state handlers, not included under
`src/`). Only the variants referenced by the climb handler are modelled;
each carries a zero-sized handler marker in the source, elided here. -/
inductive MoveState where
  | Stand
  | Run
  | Jump
  | Fall
  | Climb
deriving DecidableEq

/-- Modelled from the spec: the orthogonal action-state tag of
`CharacterState` (`ActionState`, not included under `src/`). -/
inductive ActionState where
  | Idle
  | Attack
  | Block
deriving DecidableEq

/-- The product character state: exactly one `move_state` and one
`action_state` (`CharacterState` in the source). -/
structure CharacterState where
  move_state : MoveState
  action_state : ActionState
deriving DecidableEq

/-- Modelled from the spec: a three-state edge-triggerable button flag
(pressed this tick / held from an earlier tick / not pressed); the concrete
`Input` type is not included under `src/`. -/
inductive InputState where
  | JustPressed
  | Held
  | Unpressed
deriving DecidableEq

/-- `Input::is_pressed`: the level signal, true while the button is down
(whether it became pressed this tick or is held). -/
def InputState.is_pressed : InputState → Bool
  | .Unpressed => false
  | _ => true

/-- Modelled from the spec: the per-tick normalized control command
(`ControllerInputs`), restricted to the fields the climb handler reads. -/
structure ControllerInputs where
  move_dir : Vec2
  jump : InputState
  climb : InputState
  climb_down : InputState

/-- Modelled from the spec: per-tick physics facts (`PhysicsState`):
ground contact and optional wall-contact direction. -/
structure PhysicsState where
  on_ground : Bool
  on_wall : Option Vec3

/-- Position newtype (`Pos(Vec3<f32>)`); `v` models the `.0` field. -/
structure Pos where
  v : Vec3

/-- Velocity newtype (`Vel(Vec3<f32>)`); `v` models the `.0` field. -/
structure Vel where
  v : Vec3

/-- Orientation newtype (`Ori(Vec3<f32>)`), a forward direction;
`v` models the `.0` field. -/
structure Ori where
  v : Vec3

/-- The read-only per-entity data handed to a state handler
(`ECSStateData`), restricted to the fields the climb handler reads;
`dt` models `ecs_data.dt.0`, the elapsed seconds of the tick. -/
structure ECSStateData where
  pos : Pos
  vel : Vel
  ori : Ori
  character : CharacterState
  dt : ℝ
  inputs : ControllerInputs
  physics : PhysicsState

/-- The snapshot a state handler returns (`ECSStateUpdate`). -/
structure ECSStateUpdate where
  pos : Pos
  vel : Vel
  ori : Ori
  character : CharacterState

/-- Modelled from the spec: `CLIMB_SPEED`, the maximum climb speed constant
(declared with the other movement constants, not included under `src/`).
Every claim settled below depends only on its positivity, not its value. -/
def CLIMB_SPEED : ℝ := 5

/-- Modelled from the spec: `HUMANOID_SPEED`, the humanoid speed cap used by
the ground-movement handlers and, via `powf(2.0)`, by the climb handler's
acceleration gate; not included under `src/`. -/
def HUMANOID_SPEED : ℝ := 120

/-- Modelled from the spec: `HUMANOID_CLIMB_ACCEL`, the climb-mode
acceleration constant; not included under `src/`. -/
def HUMANOID_CLIMB_ACCEL : ℝ := 5

/-- Modelled from the spec: `GRAVITY` from `crate::sys::phys` (the gravity
constant supplied by the physics layer, not included under `src/`); taken as
the standard `9.81`. Every claim settled below depends only on its
positivity, not its value. -/
def GRAVITY : ℝ := 981 / 100

/-- First stage of `ClimbHandler::handle` (climb.rs lines 22-29): move the
player according to `move_dir`. `Vec2::broadcast(dt) * move_dir * accel` is
added onto the `x`/`y` components of the velocity; the acceleration factor is
`HUMANOID_CLIMB_ACCEL` while the squared magnitude of the full 3-D velocity
is below `HUMANOID_SPEED.powf(2.0)`, and `0` otherwise. -/
def velAfterAccel (d : ECSStateData) : Vec3 :=
  d.vel.v.addVec2
    (((Vec2.broadcast d.dt).mul d.inputs.move_dir).smul
      (if d.vel.v.magnitude_squared < HUMANOID_SPEED ^ 2 then HUMANOID_CLIMB_ACCEL else 0))

/-- Second stage (climb.rs lines 31-40): the orientation target direction.
With wall contact it is the normalized wall direction (falling back to the
current velocity when the wall direction is degenerate); without wall contact
it is the current (post-acceleration) velocity, projected to 2-D. -/
def oriDir (d : ECSStateData) : Vec2 :=
  match d.physics.on_wall with
  | some wall_dir =>
    if (Vec2.ofVec3 wall_dir).magnitude_squared > 0.001 then
      (Vec2.ofVec3 wall_dir).normalized
    else Vec2.ofVec3 (velAfterAccel d)
  | none => Vec2.ofVec3 (velAfterAccel d)

/-- Third stage (climb.rs lines 42-51): slerp the orientation toward the
target direction, at rate `9 * dt` when grounded and `2 * dt` otherwise,
skipped entirely when the target is near-degenerate (squared magnitude at
most `0.0001`) or already nearly aligned (squared distance of the
normalizations at most `0.001`). -/
def oriAfterTurn (d : ECSStateData) : Vec3 :=
  if (oriDir d).magnitude_squared > 0.0001 ∧
      ((d.ori.v.normalized.sub (Vec3.ofVec2 (oriDir d)).normalized).magnitude_squared > 0.001) then
    Vec3.slerp d.ori.v (Vec3.ofVec2 (oriDir d))
      ((if d.physics.on_ground then (9 : ℝ) else 2) * d.dt)
  else d.ori.v

/-- Climb-down branch (climb.rs lines 59-61): per-axis power-law drag,
`v -= dt * map (|e| |e|^1.5 * signum e * 6)`. -/
def climbDownDrag (v : Vec3) (dt : ℝ) : Vec3 :=
  v.sub ((v.map (fun e => powf15 |e| * signum e * 6)).smul dt)

/-- Climb-up branch (climb.rs line 64): counter gravity at 1.25 scale,
capped at `CLIMB_SPEED`: `v.z = min (v.z + dt * GRAVITY * 1.25) CLIMB_SPEED`. -/
def climbUpVel (v : Vec3) (dt : ℝ) : Vec3 :=
  { v with z := min (v.z + dt * GRAVITY * 1.25) CLIMB_SPEED }

/-- Remaining branch of the vertical-climbing block (climb.rs lines 66-72):
add `dt * GRAVITY * 1.5` to `v.z`, then (clamped) lerp the whole velocity
toward zero with factor `30 * dt / (1 - min v.z 0 * 5)` computed from the
updated `v.z`. -/
def climbSlideBlend (v : Vec3) (dt : ℝ) : Vec3 :=
  let v1 : Vec3 := { v with z := v.z + dt * GRAVITY * 1.5 }
  Vec3.lerp v1 Vec3.zero (30 * dt / (1 - min v1.z 0 * 5))

/-- Fourth stage (climb.rs lines 53-74): apply vertical climbing movement.
The whole block is gated on `(climb pressed | climb_down pressed) && v.z ≤
CLIMB_SPEED` paired with wall contact (`if let (true, Some(_wall_dir))`);
inside, `climb_down && !climb` selects the drag branch, `climb &&
!climb_down` the capped up branch, and the remaining case (reachable only
with both pressed, given the gate) the gravity/lerp blend. -/
def velAfterClimb (d : ECSStateData) : Vec3 :=
  match d.physics.on_wall with
  | some _wall_dir =>
    if (d.inputs.climb.is_pressed || d.inputs.climb_down.is_pressed) = true ∧
        (velAfterAccel d).z ≤ CLIMB_SPEED then
      if (d.inputs.climb_down.is_pressed && !d.inputs.climb.is_pressed) = true then
        climbDownDrag (velAfterAccel d) d.dt
      else if (d.inputs.climb.is_pressed && !d.inputs.climb_down.is_pressed) = true then
        climbUpVel (velAfterAccel d) d.dt
      else
        climbSlideBlend (velAfterAccel d) d.dt
    else velAfterAccel d
  | none => velAfterAccel d

/-- `ClimbHandler::handle` (climb.rs lines 14-99). The source builds `update`
from the input snapshot, mutates its velocity and orientation through the
stages above, and then returns early from one of the transition branches:
with no wall contact it returns `Jump`/`Idle` when jump is pressed and
`Fall`/`Idle` otherwise (lines 75-89); with wall contact and ground contact
it returns `Stand`/`Idle` (lines 90-96); otherwise it falls through and
returns `update` with the character state unchanged. Every return path
carries the same `pos`, `vel` and `ori`, so the early returns are embedded
as a single `character` field computed by cases. -/
def ClimbHandler.handle (d : ECSStateData) : ECSStateUpdate :=
  { pos := d.pos
    vel := ⟨velAfterClimb d⟩
    ori := ⟨oriAfterTurn d⟩
    character :=
      match d.physics.on_wall with
      | none =>
        if d.inputs.jump.is_pressed then
          { move_state := .Jump, action_state := .Idle }
        else
          { move_state := .Fall, action_state := .Idle }
      | some _ =>
        if d.physics.on_ground then
          { move_state := .Stand, action_state := .Idle }
        else d.character }

/-- One repeated tick with frozen inputs: feed the handler's output snapshot
back in, keeping `dt`, the control inputs and the physics facts fixed. -/
def stepData (d : ECSStateData) : ECSStateData :=
  { d with
    pos := (ClimbHandler.handle d).pos
    vel := (ClimbHandler.handle d).vel
    ori := (ClimbHandler.handle d).ori
    character := (ClimbHandler.handle d).character }

/-- Modelled from the spec: the `specs` crate's `DispatcherBuilder` (an
external dependency), reduced to the registration record it accumulates:
for each added system, its name and the list of names of the systems it is
declared to depend on. The system value itself carries no ordering
information and is elided. -/
structure DispatcherBuilder where
  systems : List (String × List String)

/-- `DispatcherBuilder::add(system, name, deps)`: append the registration. -/
def DispatcherBuilder.add (b : DispatcherBuilder) (name : String)
    (dep : List String) : DispatcherBuilder :=
  ⟨b.systems ++ [(name, dep)]⟩

/-- System name constant from `src/common/src/sys/mod.rs`. -/
def AGENT_SYS : String := "agent_sys"

/-- System name constant from `src/common/src/sys/mod.rs`. -/
def CONTROL_SYS : String := "control_sys"

/-- System name constant from `src/common/src/sys/mod.rs`. -/
def MOVEMENT_SYS : String := "movement_sys"

/-- System name constant from `src/common/src/sys/mod.rs`. -/
def ACTION_STATE_SYS : String := "action_state_sys"

/-- `add_local_systems` (`src/common/src/sys/mod.rs` lines 15-20): register
the agent, control, movement (physics) and action-state systems, each with
an empty dependency list (`&[]`). -/
def add_local_systems (dispatch_builder : DispatcherBuilder) : DispatcherBuilder :=
  (((dispatch_builder.add AGENT_SYS []).add CONTROL_SYS []).add
      MOVEMENT_SYS []).add ACTION_STATE_SYS []

/-- A sequential execution order of the registered systems respects the
declared dependencies when every declared dependency of a system occurs
strictly before that system in the order. This is the only ordering the
`specs` dispatcher's explicit dependency lists enforce. -/
def respectsDeps (l : List (String × List String)) (order : List String) : Bool :=
  l.all (fun p => p.2.all (fun dep => order.indexOf dep < order.indexOf p.1))

/-! Concrete sample inputs used by witnesses and counterexamples. -/

/-- Wall direction pointing north, `Vec3::unit_y`. -/
def north : Vec3 := ⟨0, 1, 0⟩

/-- A climbing entity that has lost wall contact, jump just pressed. -/
def sampleNoWallJump : ECSStateData :=
  { pos := ⟨⟨0, 0, 0⟩⟩
    vel := ⟨⟨0, 0, 0⟩⟩
    ori := ⟨⟨1, 0, 0⟩⟩
    character := ⟨.Climb, .Idle⟩
    dt := 1 / 60
    inputs :=
      { move_dir := ⟨0, 0⟩
        jump := .JustPressed
        climb := .Unpressed
        climb_down := .Unpressed }
    physics := { on_ground := false, on_wall := none } }

/-- The acceleration stage only touches the horizontal components: the
vertical velocity is unchanged by it. -/
theorem velAfterAccel_z (d : ECSStateData) : (velAfterAccel d).z = d.vel.v.z := rfl

/-- The returned velocity is the vertical-climbing-stage velocity, on every
return path of the handler. -/
theorem handle_vel (d : ECSStateData) :
    (ClimbHandler.handle d).vel.v = velAfterClimb d := rfl

/-- The returned orientation is the turn-stage orientation, on every return
path of the handler. -/
theorem handle_ori (d : ECSStateData) :
    (ClimbHandler.handle d).ori.v = oriAfterTurn d := rfl

/-- C1: for every input with `physics.on_wall = None`, `ClimbHandler::handle`
returns, in the same tick's output, a snapshot whose `move_state` is `Jump`
when the jump flag is just-pressed and `Fall` when the jump flag is not
pressed. -/
theorem climb_no_wall_same_tick (d : ECSStateData)
    (hw : d.physics.on_wall = none) :
    (d.inputs.jump = .JustPressed →
      (ClimbHandler.handle d).character.move_state = .Jump) ∧
    (d.inputs.jump = .Unpressed →
      (ClimbHandler.handle d).character.move_state = .Fall) := by
  constructor <;> intro hj <;> simp [ClimbHandler.handle, hw, hj, InputState.is_pressed]

/-- Witness for C1 at a concrete input: wall contact lost, jump just
pressed, and the same tick's output `move_state` already is `Jump`. -/
theorem climb_no_wall_same_tick_witness :
    sampleNoWallJump.physics.on_wall = none ∧
    ((sampleNoWallJump.inputs.jump = .JustPressed →
      (ClimbHandler.handle sampleNoWallJump).character.move_state = .Jump) ∧
     (sampleNoWallJump.inputs.jump = .Unpressed →
      (ClimbHandler.handle sampleNoWallJump).character.move_state = .Fall)) :=
  ⟨rfl, climb_no_wall_same_tick sampleNoWallJump rfl⟩

/-- C2: the wall-contact-lost check precedes the on-ground check: from Climb,
with `on_wall = None` and `on_ground = true` the output `move_state` is
`Jump` or `Fall` and never `Stand`; `Stand` is produced only when `on_wall`
is `Some` and `on_ground` is `true`. -/
theorem climb_wall_lost_precedence (d : ECSStateData)
    (hm : d.character.move_state = .Climb) :
    (d.physics.on_wall = none → d.physics.on_ground = true →
      ((ClimbHandler.handle d).character.move_state = .Jump ∨
        (ClimbHandler.handle d).character.move_state = .Fall) ∧
      (ClimbHandler.handle d).character.move_state ≠ .Stand) ∧
    ((ClimbHandler.handle d).character.move_state = .Stand →
      d.physics.on_wall ≠ none ∧ d.physics.on_ground = true) := by
  constructor
  · intro hw _hg
    by_cases hj : d.inputs.jump.is_pressed <;>
      simp [ClimbHandler.handle, hw, hj]
  · intro hs
    cases hwall : d.physics.on_wall with
    | none =>
      exfalso
      by_cases hj : d.inputs.jump.is_pressed <;>
        simp [ClimbHandler.handle, hwall, hj] at hs
    | some w =>
      cases hg : d.physics.on_ground with
      | true => exact ⟨by simp [hwall], rfl⟩
      | false =>
        exfalso
        simp [ClimbHandler.handle, hwall, hg] at hs
        simp [hm] at hs

/-- Witness for C2 at a concrete input: a climbing entity that lost wall
contact, for which the theorem yields the Jump-or-Fall, never-Stand
conclusion. -/
theorem climb_wall_lost_precedence_witness :
    sampleNoWallJump.character.move_state = .Climb ∧
    ((sampleNoWallJump.physics.on_wall = none →
        sampleNoWallJump.physics.on_ground = true →
      ((ClimbHandler.handle sampleNoWallJump).character.move_state = .Jump ∨
        (ClimbHandler.handle sampleNoWallJump).character.move_state = .Fall) ∧
      (ClimbHandler.handle sampleNoWallJump).character.move_state ≠ .Stand) ∧
     ((ClimbHandler.handle sampleNoWallJump).character.move_state = .Stand →
      sampleNoWallJump.physics.on_wall ≠ none ∧
        sampleNoWallJump.physics.on_ground = true)) :=
  ⟨rfl, climb_wall_lost_precedence sampleNoWallJump rfl⟩

/-- C9: `ClimbHandler::handle` is a total function of its input: it is
defined for every combination of flags, physics facts, `dt` and snapshot
values (it is a Lean `def`, with no partiality and no panicking operation),
and the returned character state is fully determined: `Jump`/`Idle`,
`Fall`/`Idle`, `Stand`/`Idle`, or the unchanged input character state. -/
theorem climb_handle_total (d : ECSStateData) :
    (ClimbHandler.handle d).character = ⟨.Jump, .Idle⟩ ∨
    (ClimbHandler.handle d).character = ⟨.Fall, .Idle⟩ ∨
    (ClimbHandler.handle d).character = ⟨.Stand, .Idle⟩ ∨
    (ClimbHandler.handle d).character = d.character := by
  cases hw : d.physics.on_wall with
  | none =>
    by_cases hj : d.inputs.jump.is_pressed <;>
      simp [ClimbHandler.handle, hw, hj]
  | some w =>
    by_cases hg : d.physics.on_ground <;>
      simp [ClimbHandler.handle, hw, hg]

/-- C10: whenever `ClimbHandler::handle` moves the entity out of Climb, the
output `action_state` is `Idle`, discarding the entry action state; the
character state (hence the action state) is preserved exactly when the
entity remains in Climb. -/
theorem climb_exit_sets_idle (d : ECSStateData)
    (hm : d.character.move_state = .Climb) :
    ((ClimbHandler.handle d).character.move_state ≠ .Climb →
      (ClimbHandler.handle d).character.action_state = .Idle) ∧
    ((ClimbHandler.handle d).character.move_state = .Climb →
      (ClimbHandler.handle d).character = d.character) := by
  cases hw : d.physics.on_wall with
  | none =>
    by_cases hj : d.inputs.jump.is_pressed <;>
      simp [ClimbHandler.handle, hw, hj]
  | some w =>
    cases hg : d.physics.on_ground with
    | true => simp [ClimbHandler.handle, hw, hg]
    | false => simp [ClimbHandler.handle, hw, hg, hm]

/-- Witness for C10 at a concrete input: a climbing entity whose exit
transition (to `Jump`) indeed resets the action state to `Idle`. -/
theorem climb_exit_sets_idle_witness :
    sampleNoWallJump.character.move_state = .Climb ∧
    (((ClimbHandler.handle sampleNoWallJump).character.move_state ≠ .Climb →
      (ClimbHandler.handle sampleNoWallJump).character.action_state = .Idle) ∧
     ((ClimbHandler.handle sampleNoWallJump).character.move_state = .Climb →
      (ClimbHandler.handle sampleNoWallJump).character = sampleNoWallJump.character)) :=
  ⟨rfl, climb_exit_sets_idle sampleNoWallJump rfl⟩

/-- A climbing entity on a wall, climb held, climb-down not pressed. -/
def sampleClimbUp : ECSStateData :=
  { pos := ⟨⟨0, 0, 0⟩⟩
    vel := ⟨⟨0, 0, 0⟩⟩
    ori := ⟨⟨1, 0, 0⟩⟩
    character := ⟨.Climb, .Idle⟩
    dt := 1 / 10
    inputs :=
      { move_dir := ⟨0, 0⟩
        jump := .Unpressed
        climb := .Held
        climb_down := .Unpressed }
    physics := { on_ground := false, on_wall := some north } }

/-- Repeating a tick preserves the frozen inputs, physics facts and `dt`. -/
theorem stepData_frozen (d : ECSStateData) :
    (stepData d).physics = d.physics ∧ (stepData d).inputs = d.inputs ∧
      (stepData d).dt = d.dt :=
  ⟨rfl, rfl, rfl⟩

/-- Single tick of the climb-up branch: with wall contact, climb pressed,
climb-down not pressed and vertical velocity at most `CLIMB_SPEED`, the
output vertical velocity is exactly
`min (v.z + dt * GRAVITY * 1.25) CLIMB_SPEED`. -/
theorem climb_up_step (d : ECSStateData) (w : Vec3)
    (hw : d.physics.on_wall = some w)
    (hc : d.inputs.climb.is_pressed = true)
    (hcd : d.inputs.climb_down.is_pressed = false)
    (hz : d.vel.v.z ≤ CLIMB_SPEED) :
    (ClimbHandler.handle d).vel.v.z =
      min (d.vel.v.z + d.dt * GRAVITY * 1.25) CLIMB_SPEED := by
  rw [handle_vel]
  simp only [velAfterClimb, hw]
  rw [if_pos ⟨by simp [hc], by rw [velAfterAccel_z]; exact hz⟩,
    if_neg (by simp [hcd]), if_pos (by simp [hc, hcd])]
  simp [climbUpVel, velAfterAccel_z]

/-- C4: in Climb mode with wall contact, climb pressed, climb-down not
pressed and initial vertical velocity at most `CLIMB_SPEED`, the vertical
velocity never exceeds `CLIMB_SPEED`, and over repeated ticks with these
frozen inputs it is monotonically non-decreasing (approaching the cap). -/
theorem climb_up_capped_monotone (d : ECSStateData) (w : Vec3)
    (hw : d.physics.on_wall = some w)
    (hc : d.inputs.climb.is_pressed = true)
    (hcd : d.inputs.climb_down.is_pressed = false)
    (hdt : 0 ≤ d.dt)
    (hz : d.vel.v.z ≤ CLIMB_SPEED) (n : ℕ) :
    (stepData^[n] d).vel.v.z ≤ (stepData^[n + 1] d).vel.v.z ∧
      (stepData^[n + 1] d).vel.v.z ≤ CLIMB_SPEED := by
  have hiter : ∀ m : ℕ, (stepData^[m] d).physics = d.physics ∧
      (stepData^[m] d).inputs = d.inputs ∧ (stepData^[m] d).dt = d.dt := by
    intro m
    induction m with
    | zero => exact ⟨rfl, rfl, rfl⟩
    | succ k ih =>
      rw [Function.iterate_succ_apply']
      exact ⟨ih.1, ih.2.1, ih.2.2⟩
  have hstep : ∀ e : ECSStateData, e.physics = d.physics → e.inputs = d.inputs →
      e.dt = d.dt → e.vel.v.z ≤ CLIMB_SPEED →
      (stepData e).vel.v.z = min (e.vel.v.z + d.dt * GRAVITY * 1.25) CLIMB_SPEED := by
    intro e hp hi hdt' hze
    have h := climb_up_step e w (by rw [hp, hw]) (by rw [hi]; exact hc)
      (by rw [hi]; exact hcd) hze
    calc (stepData e).vel.v.z = (ClimbHandler.handle e).vel.v.z := rfl
      _ = min (e.vel.v.z + e.dt * GRAVITY * 1.25) CLIMB_SPEED := h
      _ = min (e.vel.v.z + d.dt * GRAVITY * 1.25) CLIMB_SPEED := by rw [hdt']
  have hcs : ∀ m : ℕ, (stepData^[m] d).vel.v.z ≤ CLIMB_SPEED := by
    intro m
    induction m with
    | zero => exact hz
    | succ k ih =>
      rw [Function.iterate_succ_apply',
        hstep _ (hiter k).1 (hiter k).2.1 (hiter k).2.2 ih]
      exact min_le_right _ _
  have hG : (0 : ℝ) ≤ d.dt * GRAVITY * 1.25 := by
    have hg : (0 : ℝ) ≤ GRAVITY := by norm_num [GRAVITY]
    nlinarith
  refine ⟨?_, ?_⟩ <;>
    rw [Function.iterate_succ_apply',
      hstep _ (hiter n).1 (hiter n).2.1 (hiter n).2.2 (hcs n)]
  · exact le_min (by linarith) (hcs n)
  · exact min_le_right _ _

/-- Witness for C4 at a concrete input (a resting entity on a north wall,
climb held, `dt = 1/10`), instantiated at the first tick. -/
theorem climb_up_capped_monotone_witness :
    sampleClimbUp.physics.on_wall = some north ∧
    sampleClimbUp.inputs.climb.is_pressed = true ∧
    sampleClimbUp.inputs.climb_down.is_pressed = false ∧
    (0 : ℝ) ≤ sampleClimbUp.dt ∧
    sampleClimbUp.vel.v.z ≤ CLIMB_SPEED ∧
    ((stepData^[0] sampleClimbUp).vel.v.z ≤ (stepData^[0 + 1] sampleClimbUp).vel.v.z ∧
      (stepData^[0 + 1] sampleClimbUp).vel.v.z ≤ CLIMB_SPEED) :=
  ⟨rfl, rfl, rfl, by norm_num [sampleClimbUp],
    by norm_num [sampleClimbUp, CLIMB_SPEED],
    climb_up_capped_monotone sampleClimbUp north rfl rfl rfl
      (by norm_num [sampleClimbUp])
      (by norm_num [sampleClimbUp, CLIMB_SPEED]) 0⟩

/-- The spec's concrete drag scenario: entity at velocity `(0, 0, -5)` on a
north wall, climb-down pressed, `dt = 1/10`. -/
def sampleClimbDown : ECSStateData :=
  { pos := ⟨⟨0, 0, 0⟩⟩
    vel := ⟨⟨0, 0, -5⟩⟩
    ori := ⟨⟨1, 0, 0⟩⟩
    character := ⟨.Climb, .Idle⟩
    dt := 1 / 10
    inputs :=
      { move_dir := ⟨0, 0⟩
        jump := .Unpressed
        climb := .Unpressed
        climb_down := .Held }
    physics := { on_ground := false, on_wall := some north } }

/-- An entity rising faster than `CLIMB_SPEED` on a north wall, climb-down
pressed: the vertical block's gate fails and no drag is applied. -/
def sampleFastUp : ECSStateData :=
  { pos := ⟨⟨0, 0, 0⟩⟩
    vel := ⟨⟨0, 0, 6⟩⟩
    ori := ⟨⟨1, 0, 0⟩⟩
    character := ⟨.Climb, .Idle⟩
    dt := 1 / 10
    inputs :=
      { move_dir := ⟨0, 0⟩
        jump := .Unpressed
        climb := .Unpressed
        climb_down := .Held }
    physics := { on_ground := false, on_wall := some north } }

/-- When the (post-acceleration) vertical velocity exceeds `CLIMB_SPEED`,
the vertical-climbing block's gate fails regardless of the climb flags and
the velocity passes through unchanged. -/
theorem velAfterClimb_fast (d : ECSStateData)
    (hz : CLIMB_SPEED < (velAfterAccel d).z) :
    velAfterClimb d = velAfterAccel d := by
  cases hw : d.physics.on_wall with
  | none => simp [velAfterClimb, hw]
  | some w =>
    simp only [velAfterClimb, hw]
    rw [if_neg]
    rintro ⟨-, h⟩
    exact absurd h (not_le.mpr hz)

/-- Counterexample to C7: at velocity `(0, 0, 6)` with wall contact,
climb-down pressed and climb not pressed — all of the claim's stated
preconditions — the handler subtracts nothing (the whole vertical block is
gated on `v.z ≤ CLIMB_SPEED`, climb.rs lines 54-58, and `6 > CLIMB_SPEED`),
while the claimed per-axis subtraction `dt * |v|^1.5 * signum v * 6` would
have changed the vertical velocity. -/
theorem climb_down_drag_counterexample :
    CLIMB_SPEED < sampleFastUp.vel.v.z ∧
    sampleFastUp.inputs.climb_down.is_pressed = true ∧
    sampleFastUp.inputs.climb.is_pressed = false ∧
    sampleFastUp.physics.on_wall = some north ∧
    (ClimbHandler.handle sampleFastUp).vel.v.z = sampleFastUp.vel.v.z ∧
    sampleFastUp.vel.v.z -
        sampleFastUp.dt *
          (powf15 |sampleFastUp.vel.v.z| * signum sampleFastUp.vel.v.z * 6) ≠
      sampleFastUp.vel.v.z := by
  refine ⟨by norm_num [sampleFastUp, CLIMB_SPEED], rfl, rfl, rfl, ?_, ?_⟩
  · rw [handle_vel,
      velAfterClimb_fast sampleFastUp
        (by rw [velAfterAccel_z]; norm_num [sampleFastUp, CLIMB_SPEED]),
      velAfterAccel_z]
  · have hz6 : sampleFastUp.vel.v.z = 6 := by norm_num [sampleFastUp]
    have hdt : sampleFastUp.dt = 1 / 10 := by norm_num [sampleFastUp]
    rw [hz6, hdt]
    have habs : |(6 : ℝ)| = 6 := by norm_num
    have hsig : signum (6 : ℝ) = 1 := by norm_num [signum]
    have hp : powf15 6 = 6 * Real.sqrt 6 := rfl
    rw [habs, hsig, hp]
    have h6 : 0 < Real.sqrt 6 := Real.sqrt_pos.mpr (by norm_num)
    intro h
    nlinarith [h6]

/-- Single tick of the climb-down branch: with wall contact, climb-down
pressed, climb not pressed and vertical velocity at most `CLIMB_SPEED`, the
output velocity is the power-law-dragged post-acceleration velocity. -/
theorem climb_down_step (d : ECSStateData) (w : Vec3)
    (hw : d.physics.on_wall = some w)
    (hcd : d.inputs.climb_down.is_pressed = true)
    (hc : d.inputs.climb.is_pressed = false)
    (hz : d.vel.v.z ≤ CLIMB_SPEED) :
    (ClimbHandler.handle d).vel.v = climbDownDrag (velAfterAccel d) d.dt := by
  rw [handle_vel]
  simp only [velAfterClimb, hw]
  rw [if_pos ⟨by simp [hcd], by rw [velAfterAccel_z]; exact hz⟩,
    if_pos (by simp [hc, hcd])]

/-- C7 amended: in the climb-down branch — wall contact, climb-down pressed,
climb not pressed, and vertical velocity at most `CLIMB_SPEED`, the gate of
the vertical block — the handler subtracts `dt * |v| ^ 1.5 * signum v * 6`
from each velocity axis (the vertical axis in terms of the input vertical
velocity, which the acceleration stage leaves untouched); in particular, for
input velocity `(0, 0, -5)` on a north wall with `dt = 1/10`, the output
vertical velocity has magnitude strictly smaller than `5`. -/
theorem climb_down_drag_axes (d : ECSStateData) (w : Vec3)
    (hw : d.physics.on_wall = some w)
    (hcd : d.inputs.climb_down.is_pressed = true)
    (hc : d.inputs.climb.is_pressed = false)
    (hz : d.vel.v.z ≤ CLIMB_SPEED) :
    ((ClimbHandler.handle d).vel.v =
        (velAfterAccel d).sub
          (((velAfterAccel d).map (fun e => powf15 |e| * signum e * 6)).smul d.dt) ∧
      (ClimbHandler.handle d).vel.v.z =
        d.vel.v.z - d.dt * (powf15 |d.vel.v.z| * signum d.vel.v.z * 6)) ∧
    |(ClimbHandler.handle sampleClimbDown).vel.v.z| < 5 := by
  have hstep := climb_down_step d w hw hcd hc hz
  refine ⟨⟨by rw [hstep]; rfl, ?_⟩, ?_⟩
  · rw [hstep]
    show (velAfterAccel d).z -
        powf15 |(velAfterAccel d).z| * signum (velAfterAccel d).z * 6 * d.dt = _
    rw [velAfterAccel_z]; ring
  · have h2 := climb_down_step sampleClimbDown north rfl rfl rfl
      (by norm_num [sampleClimbDown, CLIMB_SPEED])
    have hz5 : (ClimbHandler.handle sampleClimbDown).vel.v.z =
        -5 + 3 * Real.sqrt 5 := by
      rw [h2]
      show (velAfterAccel sampleClimbDown).z -
          powf15 |(velAfterAccel sampleClimbDown).z| *
            signum (velAfterAccel sampleClimbDown).z * 6 * sampleClimbDown.dt = _
      have hva : (velAfterAccel sampleClimbDown).z = -5 := rfl
      rw [hva]
      norm_num [powf15, signum, sampleClimbDown]
      ring
    rw [hz5, abs_lt]
    have h5 : Real.sqrt 5 ^ 2 = 5 := Real.sq_sqrt (by norm_num)
    have hpos : 0 < Real.sqrt 5 := Real.sqrt_pos.mpr (by norm_num)
    constructor <;> nlinarith [h5, hpos]

/-- Witness for C7 at the spec's concrete scenario input. -/
theorem climb_down_drag_axes_witness :
    sampleClimbDown.physics.on_wall = some north ∧
    sampleClimbDown.inputs.climb_down.is_pressed = true ∧
    sampleClimbDown.inputs.climb.is_pressed = false ∧
    sampleClimbDown.vel.v.z ≤ CLIMB_SPEED ∧
    (((ClimbHandler.handle sampleClimbDown).vel.v =
        (velAfterAccel sampleClimbDown).sub
          (((velAfterAccel sampleClimbDown).map
              (fun e => powf15 |e| * signum e * 6)).smul sampleClimbDown.dt) ∧
      (ClimbHandler.handle sampleClimbDown).vel.v.z =
        sampleClimbDown.vel.v.z -
          sampleClimbDown.dt *
            (powf15 |sampleClimbDown.vel.v.z| * signum sampleClimbDown.vel.v.z * 6)) ∧
     |(ClimbHandler.handle sampleClimbDown).vel.v.z| < 5) :=
  ⟨rfl, rfl, rfl, by norm_num [sampleClimbDown, CLIMB_SPEED],
    climb_down_drag_axes sampleClimbDown north rfl rfl rfl
      (by norm_num [sampleClimbDown, CLIMB_SPEED])⟩

/-- An airborne entity with no wall contact and zero velocity, so the
orientation target direction is degenerate. -/
def sampleZeroVel : ECSStateData :=
  { pos := ⟨⟨0, 0, 0⟩⟩
    vel := ⟨⟨0, 0, 0⟩⟩
    ori := ⟨⟨1, 0, 0⟩⟩
    character := ⟨.Climb, .Idle⟩
    dt := 1
    inputs :=
      { move_dir := ⟨0, 0⟩
        jump := .Unpressed
        climb := .Unpressed
        climb_down := .Unpressed }
    physics := { on_ground := false, on_wall := none } }

/-- C8: the output orientation equals the input orientation whenever the
computed target direction has squared magnitude at most `0.0001`, or the
squared distance between the normalized current orientation and the
normalized target direction is at most `0.001`. -/
theorem climb_ori_noop (d : ECSStateData)
    (h : (oriDir d).magnitude_squared ≤ 0.0001 ∨
      (d.ori.v.normalized.sub
        (Vec3.ofVec2 (oriDir d)).normalized).magnitude_squared ≤ 0.001) :
    (ClimbHandler.handle d).ori.v = d.ori.v := by
  rw [handle_ori]
  unfold oriAfterTurn
  rw [if_neg]
  rintro ⟨h1, h2⟩
  rcases h with h | h
  · exact absurd h1 (not_lt.mpr h)
  · exact absurd h2 (not_lt.mpr h)

/-- Witness for C8 at a concrete input: with zero velocity and no wall the
target direction is the zero vector, and the orientation is unchanged. -/
theorem climb_ori_noop_witness :
    ((oriDir sampleZeroVel).magnitude_squared ≤ 0.0001 ∨
      (sampleZeroVel.ori.v.normalized.sub
        (Vec3.ofVec2 (oriDir sampleZeroVel)).normalized).magnitude_squared ≤ 0.001) ∧
    (ClimbHandler.handle sampleZeroVel).ori.v = sampleZeroVel.ori.v :=
  ⟨Or.inl (by norm_num [oriDir, sampleZeroVel, velAfterAccel, Vec2.ofVec3,
      Vec3.addVec2, Vec2.broadcast, Vec2.mul, Vec2.smul, Vec2.magnitude_squared,
      Vec3.magnitude_squared, HUMANOID_SPEED, HUMANOID_CLIMB_ACCEL]),
    climb_ori_noop sampleZeroVel
      (Or.inl (by norm_num [oriDir, sampleZeroVel, velAfterAccel, Vec2.ofVec3,
        Vec3.addVec2, Vec2.broadcast, Vec2.mul, Vec2.smul, Vec2.magnitude_squared,
        Vec3.magnitude_squared, HUMANOID_SPEED, HUMANOID_CLIMB_ACCEL]))⟩

/-- When neither climb flag is pressed, the vertical-climbing block is
skipped entirely and the velocity is the post-acceleration velocity. -/
theorem velAfterClimb_no_flags (d : ECSStateData)
    (hc : d.inputs.climb.is_pressed = false)
    (hcd : d.inputs.climb_down.is_pressed = false) :
    velAfterClimb d = velAfterAccel d := by
  cases hw : d.physics.on_wall with
  | none => simp [velAfterClimb, hw]
  | some w => simp [velAfterClimb, hw, hc, hcd]

/-- An entity moving vertically at exactly `HUMANOID_SPEED`, with zero
horizontal speed and a full sideways move command. -/
def sampleAtCap : ECSStateData :=
  { pos := ⟨⟨0, 0, 0⟩⟩
    vel := ⟨⟨0, 0, 120⟩⟩
    ori := ⟨⟨1, 0, 0⟩⟩
    character := ⟨.Climb, .Idle⟩
    dt := 1
    inputs :=
      { move_dir := ⟨1, 0⟩
        jump := .Unpressed
        climb := .Unpressed
        climb_down := .Unpressed }
    physics := { on_ground := false, on_wall := some north } }

/-- Counterexample to C3: an input whose squared horizontal speed is `0` —
below every positive cap, in particular below any climb-specific cap — and
whose move command would accumulate a nonzero `dt * move_dir * accel`, yet
the handler adds no acceleration at all, because its gate compares the
squared magnitude of the full 3-D velocity (here `HUMANOID_SPEED ^ 2`, from
the vertical component alone) against `HUMANOID_SPEED ^ 2`, not the
horizontal speed against a climb-specific cap. -/
theorem climb_accel_cap_counterexample :
    (Vec2.ofVec3 sampleAtCap.vel.v).magnitude_squared = 0 ∧
    (0 : ℝ) < HUMANOID_CLIMB_ACCEL ∧
    sampleAtCap.dt * sampleAtCap.inputs.move_dir.x * HUMANOID_CLIMB_ACCEL ≠ 0 ∧
    (ClimbHandler.handle sampleAtCap).vel.v.x = sampleAtCap.vel.v.x := by
  refine ⟨by norm_num [Vec2.ofVec3, Vec2.magnitude_squared, sampleAtCap],
    by norm_num [HUMANOID_CLIMB_ACCEL],
    by norm_num [sampleAtCap, HUMANOID_CLIMB_ACCEL], ?_⟩
  rw [handle_vel, velAfterClimb_no_flags sampleAtCap rfl rfl]
  norm_num [velAfterAccel, sampleAtCap, Vec3.addVec2, Vec2.broadcast, Vec2.mul,
    Vec2.smul, Vec3.magnitude_squared, HUMANOID_SPEED]

/-- C3 amended: with neither climb flag pressed (so the vertical block does
not interfere), the handler accumulates `dt * move_dir * HUMANOID_CLIMB_ACCEL`
onto the horizontal velocity components while the squared magnitude of the
full 3-D velocity is below `HUMANOID_SPEED ^ 2` — the same humanoid cap the
ground handlers use, not a lower climb-specific one — and once at or above
that threshold adds no acceleration (no clamping of attained speed). -/
theorem climb_accel_cap_amended (d : ECSStateData)
    (hc : d.inputs.climb.is_pressed = false)
    (hcd : d.inputs.climb_down.is_pressed = false) :
    (d.vel.v.magnitude_squared < HUMANOID_SPEED ^ 2 →
      (ClimbHandler.handle d).vel.v =
        d.vel.v.addVec2
          (((Vec2.broadcast d.dt).mul d.inputs.move_dir).smul HUMANOID_CLIMB_ACCEL)) ∧
    (HUMANOID_SPEED ^ 2 ≤ d.vel.v.magnitude_squared →
      (ClimbHandler.handle d).vel.v = d.vel.v) := by
  constructor <;> intro h <;>
    rw [handle_vel, velAfterClimb_no_flags d hc hcd] <;> unfold velAfterAccel
  · rw [if_pos h]
  · rw [if_neg (not_lt.mpr h)]
    simp [Vec3.addVec2, Vec2.smul]

/-- Witness for the amended C3 at a concrete input: the at-cap entity of the
counterexample, on which the no-acceleration case fires. -/
theorem climb_accel_cap_amended_witness :
    sampleAtCap.inputs.climb.is_pressed = false ∧
    sampleAtCap.inputs.climb_down.is_pressed = false ∧
    ((sampleAtCap.vel.v.magnitude_squared < HUMANOID_SPEED ^ 2 →
      (ClimbHandler.handle sampleAtCap).vel.v =
        sampleAtCap.vel.v.addVec2
          (((Vec2.broadcast sampleAtCap.dt).mul sampleAtCap.inputs.move_dir).smul
            HUMANOID_CLIMB_ACCEL)) ∧
     (HUMANOID_SPEED ^ 2 ≤ sampleAtCap.vel.v.magnitude_squared →
      (ClimbHandler.handle sampleAtCap).vel.v = sampleAtCap.vel.v)) :=
  ⟨rfl, rfl, climb_accel_cap_amended sampleAtCap rfl rfl⟩

/-- A descending entity on a north wall with NEITHER climb flag pressed. -/
def sampleNeitherFlag : ECSStateData :=
  { pos := ⟨⟨0, 0, 0⟩⟩
    vel := ⟨⟨0, 0, -5⟩⟩
    ori := ⟨⟨1, 0, 0⟩⟩
    character := ⟨.Climb, .Idle⟩
    dt := 1 / 10
    inputs :=
      { move_dir := ⟨0, 0⟩
        jump := .Unpressed
        climb := .Unpressed
        climb_down := .Unpressed }
    physics := { on_ground := false, on_wall := some north } }

/-- A descending entity on a north wall with BOTH climb flags pressed. -/
def sampleBothFlags : ECSStateData :=
  { pos := ⟨⟨0, 0, 0⟩⟩
    vel := ⟨⟨0, 0, -5⟩⟩
    ori := ⟨⟨1, 0, 0⟩⟩
    character := ⟨.Climb, .Idle⟩
    dt := 1 / 10
    inputs :=
      { move_dir := ⟨0, 0⟩
        jump := .Unpressed
        climb := .Held
        climb_down := .Held }
    physics := { on_ground := false, on_wall := some north } }

/-- Counterexample to C6: with wall contact, vertical velocity `-5 ≤
CLIMB_SPEED` and NEITHER climb flag pressed, the handler leaves the velocity
completely unchanged (the vertical block's gate `climb pressed | climb_down
pressed` fails), whereas the claimed gravity/interpolation blend would have
produced a different vertical velocity; moreover the blend's interpolation
factor `30 * dt / (1 - min v.z 0 * 5)` is strictly SMALLER — not larger — at
the greater downward speed `-10` than at `-2`. -/
theorem climb_slide_blend_counterexample :
    (ClimbHandler.handle sampleNeitherFlag).vel.v.z = -5 ∧
    (climbSlideBlend sampleNeitherFlag.vel.v sampleNeitherFlag.dt).z ≠ -5 ∧
    30 * sampleNeitherFlag.dt / (1 - min (-10 : ℝ) 0 * 5) <
      30 * sampleNeitherFlag.dt / (1 - min (-2 : ℝ) 0 * 5) := by
  refine ⟨?_, ?_, ?_⟩
  · rw [handle_vel, velAfterClimb_no_flags sampleNeitherFlag rfl rfl,
      velAfterAccel_z]
    norm_num [sampleNeitherFlag]
  · norm_num [climbSlideBlend, Vec3.lerp, Vec3.zero, Vec3.add, Vec3.sub,
      Vec3.smul, clamp01, GRAVITY, sampleNeitherFlag, min_def, max_def]
  · norm_num [sampleNeitherFlag, min_def]

/-- C6 amended: the gravity/interpolation blend branch executes only when
BOTH climb and climb-down are pressed (the "neither pressed" combination
skips the vertical block entirely, leaving the velocity unchanged). In the
blend branch, with wall contact and vertical velocity at most `CLIMB_SPEED`,
the handler adds `dt * GRAVITY * 1.5` to the vertical velocity and lerps the
velocity toward zero with clamped factor `30 * dt / (1 - min v.z 0 * 5)` — a
factor that is smaller, not larger, the greater the downward speed (the
absolute per-tick reduction still grows with speed, giving the soft stop). -/
theorem climb_slide_blend_amended (d : ECSStateData) (w : Vec3)
    (hw : d.physics.on_wall = some w) :
    (d.inputs.climb.is_pressed = false → d.inputs.climb_down.is_pressed = false →
      (ClimbHandler.handle d).vel.v = velAfterAccel d) ∧
    (d.inputs.climb.is_pressed = true → d.inputs.climb_down.is_pressed = true →
      (velAfterAccel d).z ≤ CLIMB_SPEED →
      (ClimbHandler.handle d).vel.v = climbSlideBlend (velAfterAccel d) d.dt) ∧
    (∀ dt z1 z2 : ℝ, 0 ≤ dt → z1 ≤ z2 → z2 ≤ 0 →
      30 * dt / (1 - min z1 0 * 5) ≤ 30 * dt / (1 - min z2 0 * 5)) := by
  refine ⟨?_, ?_, ?_⟩
  · intro hc hcd
    rw [handle_vel, velAfterClimb_no_flags d hc hcd]
  · intro hc hcd hz
    rw [handle_vel]
    simp only [velAfterClimb, hw]
    rw [if_pos ⟨by simp [hc], hz⟩, if_neg (by simp [hc, hcd]),
      if_neg (by simp [hc, hcd])]
  · intro dt z1 z2 hdt h12 h20
    rw [min_eq_left (le_trans h12 h20), min_eq_left h20]
    have h1 : (0 : ℝ) < 1 - z2 * 5 := by nlinarith
    have h2 : 1 - z2 * 5 ≤ 1 - z1 * 5 := by nlinarith
    rw [div_eq_mul_inv, div_eq_mul_inv]
    exact mul_le_mul_of_nonneg_left (inv_anti₀ h1 h2) (by linarith)

/-- Witness for the amended C6 at a concrete input: the descending entity
with both climb flags pressed. -/
theorem climb_slide_blend_amended_witness :
    sampleBothFlags.physics.on_wall = some north ∧
    ((sampleBothFlags.inputs.climb.is_pressed = false →
        sampleBothFlags.inputs.climb_down.is_pressed = false →
      (ClimbHandler.handle sampleBothFlags).vel.v = velAfterAccel sampleBothFlags) ∧
     (sampleBothFlags.inputs.climb.is_pressed = true →
        sampleBothFlags.inputs.climb_down.is_pressed = true →
      (velAfterAccel sampleBothFlags).z ≤ CLIMB_SPEED →
      (ClimbHandler.handle sampleBothFlags).vel.v =
        climbSlideBlend (velAfterAccel sampleBothFlags) sampleBothFlags.dt) ∧
     (∀ dt z1 z2 : ℝ, 0 ≤ dt → z1 ≤ z2 → z2 ≤ 0 →
      30 * dt / (1 - min z1 0 * 5) ≤ 30 * dt / (1 - min z2 0 * 5))) :=
  ⟨rfl, climb_slide_blend_amended sampleBothFlags north rfl⟩

/-- Counterexample to C5: the dependency lists declared by
`add_local_systems` are all empty, so the completely reversed execution
order — action-state resolution, then physics/movement, then control, then
agent — respects every declared dependency: the registration enforces no
phase order at all. -/
theorem add_local_systems_no_order_counterexample :
    respectsDeps (add_local_systems ⟨[]⟩).systems
      [ACTION_STATE_SYS, MOVEMENT_SYS, CONTROL_SYS, AGENT_SYS] = true ∧
    (add_local_systems ⟨[]⟩).systems.all (fun p => p.2.isEmpty) = true := by
  exact ⟨rfl, rfl⟩

/-- C5 amended: `add_local_systems` registers the four systems in insertion
order — agent, control, movement (physics), action-state — each with an
EMPTY dependency list, so no ordering among them is enforced by dependency
declarations. -/
theorem add_local_systems_amended (b : DispatcherBuilder) :
    (add_local_systems b).systems =
      b.systems ++
        [(AGENT_SYS, []), (CONTROL_SYS, []), (MOVEMENT_SYS, []),
          (ACTION_STATE_SYS, [])] := by
  simp [add_local_systems, DispatcherBuilder.add]
